import Mathlib

/-!
# Key Vault subsystem — shallow embedding

A shallow embedding of `vinetrimmer/objects/vaults.py` (classes `Vault` and
`Vaults`).  Pure logic is translated directly; the external world of each
vault (its database contents, the JSON bodies of HTTP responses, the outcome
of RPC calls) is made an explicit parameter (`BackendEnv`), and Python
exceptions become `Except PyError` results.  SQL statements executed on the
sqlite/MySQL connections are modelled by their documented semantics on an
association-list database: the schema created by `create_table` declares
`kid`/`key_` as case-insensitive text with a `UNIQUE(kid, key_)` index, so row
matching uses case-insensitive string equality and a duplicate insert is an
integrity error.
-/

namespace Vaults

/-- Character-wise ASCII lowercase (the semantics of Python `str.lower` on
the ASCII identifiers this subsystem handles). -/
def strLower (s : String) : String :=
  ⟨s.data.map Char.toLower⟩

/-- Character-wise ASCII uppercase (Python `str.upper`). -/
def strUpper (s : String) : String :=
  ⟨s.data.map Char.toUpper⟩

/-- Python string `==` on the case-insensitive (`COLLATE NOCASE`) columns. -/
def ciEq (a b : String) : Bool :=
  strLower a == strLower b

/-- `InsertResult` enum (vaults.py lines 17-20). -/
inductive InsertResult where
  | FAILURE
  | SUCCESS
  | ALREADY_EXISTS
deriving DecidableEq

/-- `Vault.Types` enum (vaults.py lines 121-125). -/
inductive VaultType where
  | LOCAL
  | REMOTE
  | HTTP
  | HTTPAPI
deriving DecidableEq

/-- The Python exceptions this subsystem can raise.  `valueError` is what the
source actually raises everywhere; `permissionError` never occurs in the
source and exists so that statements about the exception's type can be
expressed. -/
inductive PyError where
  | valueError (msg : String)
  | permissionError (msg : String)
  | integrityError (msg : String)
  | operationalError (msg : String)
deriving DecidableEq

/-- One row of a service table, per the schema in `create_table`
(vaults.py lines 305-325): autoincrement id, kid, key_, nullable title. -/
structure Row where
  id : Nat
  kid : String
  key_ : String
  title : Option String
deriving DecidableEq

/-- A service table: the rows in insertion order. -/
abbrev Table := List Row

/-- A vault's database: tables by name, as an association list. -/
abbrev DB := List (String × Table)

/-- Lookup of a table by name. -/
def dbGetTable (db : DB) (t : String) : Option Table :=
  (db.find? (fun e => e.1 == t)).map (fun e => e.2)

/-- Replace the rows of table `t` (used only when `t` exists). -/
def dbSetTable (db : DB) (t : String) (rows : Table) : DB :=
  db.map (fun e => if e.1 == t then (e.1, rows) else e)

/-- Next autoincrement id for a table. -/
def nextId (rows : Table) : Nat :=
  rows.foldl (fun m r => max m r.id) 0 + 1

/-- Semantics of `INSERT INTO table (kid, key_, title) VALUES (?,?,?)`
(vaults.py lines 386-394) against the `UNIQUE(kid, key_)` index of the
schema: a missing table or a duplicate `(kid, key_)` pair is a database
error, otherwise the row is appended. -/
def dbInsert (db : DB) (table kid key title : String) : Except PyError DB :=
  match dbGetTable db table with
  | none => .error (.operationalError ("no such table: " ++ table))
  | some rows =>
    if rows.any (fun r => ciEq r.kid kid && ciEq r.key_ key) then
      .error (.integrityError "UNIQUE constraint failed: kid, key_")
    else
      .ok (dbSetTable db table (rows ++ [⟨nextId rows, kid, key, some title⟩]))

/-- One entry of the `keys` list of an HTTP / HTTPAPI lookup response. -/
structure HttpKeyEntry where
  kid : String
  key : String
deriving DecidableEq

/-- The `{status_code, inserted}` JSON body answering an HTTP-vault insert
(vaults.py lines 331-348). -/
structure HttpInsertResponse where
  status_code : Nat
  inserted : Bool
deriving DecidableEq

instance {ε α : Type} [DecidableEq ε] [DecidableEq α] : DecidableEq (Except ε α) := fun a b =>
  match a, b with
  | .ok x, .ok y =>
    if h : x = y then .isTrue (by rw [h]) else .isFalse (fun he => by cases he; exact h rfl)
  | .error x, .error y =>
    if h : x = y then .isTrue (by rw [h]) else .isFalse (fun he => by cases he; exact h rfl)
  | .ok _, .error _ => .isFalse (fun he => by cases he)
  | .error _, .ok _ => .isFalse (fun he => by cases he)

/-- The external world a vault's operations observe: the contents of its
database connection (LOCAL/REMOTE kinds) or the responses of its server
(HTTP/HTTPAPI kinds).  RPC calls that raise (`Vaults.request`, vaults.py
lines 153-180) are `.error` outcomes. -/
structure BackendEnv where
  db : DB
  httpKeys : List HttpKeyEntry
  apiGet : Except String (List HttpKeyEntry)
  httpInsert : HttpInsertResponse
  apiInsert : Except String Bool
deriving DecidableEq

/-- A grant: an operation list plus a `(database, table)` scope, as built by
`Vault.get_permissions` (vaults.py lines 90-111). -/
abbrev Grant := List String × String × String

/-- The single full-access grant `[(["*"], ("*", "*"))]` entry. -/
def wildcardGrant : Grant := (["*"], ("*", "*"))

/-- `Vault.get_permissions` (vaults.py lines 90-111): LOCAL, HTTP and HTTPAPI
vaults get the single wildcard grant; a REMOTE vault's grants come from the
`SHOW GRANTS` introspection of its MySQL connection, which is external input
here (`remoteGrants` stands for the already-parsed grant list). -/
def get_permissions (t : VaultType) (remoteGrants : List Grant) : List Grant :=
  match t with
  | .REMOTE => remoteGrants
  | _ => [wildcardGrant]

/-- `Vault.has_permission` (vaults.py lines 113-119): filter grants whose
operation list is `["*"]` or contains the uppercased operation; when a
database (resp. table) is given and grants remain, keep those whose database
(resp. table) scope equals it or is `"*"`; true iff grants remain. -/
def has_permission (perms : List Grant) (operation : String)
    (database table : Option String) : Bool :=
  let g1 := perms.filter (fun x => x.1 == ["*"] || x.1.contains (strUpper operation))
  let g2 := match database with
    | none => g1
    | some d => if g1.isEmpty then g1 else g1.filter (fun x => x.2.1 == d || x.2.1 == "*")
  let g3 := match table with
    | none => g2
    | some t => if g2.isEmpty then g2 else g2.filter (fun x => x.2.2 == t || x.2.2 == "*")
  !g3.isEmpty

/-- A constructed `Vault` object together with its backend world.  `hasTicket`
is whether `vault.ticket` is set (`Vaults.__init__` loads tickets only for
LOCAL/REMOTE vaults, vaults.py lines 146-150). -/
structure Vault where
  vtype : VaultType
  name : String
  perms : List Grant
  hasTicket : Bool
  env : BackendEnv
deriving DecidableEq

/-- The tail of `Vault.__init__` (vaults.py lines 81-85): permissions are
derived, then construction fails with `ValueError` unless the vault proves
SELECT permission.  The connection/url wiring of the earlier lines only
populates `env`. -/
def vaultInit (t : VaultType) (name : String) (remoteGrants : List Grant)
    (env : BackendEnv) : Except PyError Vault :=
  let perms := get_permissions t remoteGrants
  if has_permission perms "SELECT" none none then
    .ok { vtype := t, name := name, perms := perms, hasTicket := false, env := env }
  else
    .error (.valueError ("Cannot use vault. Vault " ++ name ++ " has no SELECT permission."))

/-- The message of the missing-ticket `ValueError` (vaults.py lines 263-266). -/
def noTicketMsg (n : String) : String :=
  "Vault " ++ n ++ " does not have a valid ticket available."

/-- `Vaults.table_exists` (vaults.py lines 260-291): HTTP vaults answer true
unconditionally; every other kind first requires a ticket (raising
`ValueError` otherwise) and then asks the database catalog
(`sqlite_master` for LOCAL, `information_schema.TABLES` otherwise) whether
the table exists. -/
def table_exists (v : Vault) (table : String) : Except PyError Bool :=
  if v.vtype == .HTTP then
    .ok true
  else if !v.hasTicket then
    .error (.valueError (noTicketMsg v.name))
  else
    .ok ((dbGetTable v.env.db table).isSome)

/-- `first_or_none` (utils/collections.py lines 100-101): first element or
none. -/
def first_or_none {α : Type} (l : List α) : Option α :=
  l.head?

/-- The value `Vaults.get` evaluates to: a `(key, vault)` pair — possibly
`(None, None)` — or the bare `None` of the HTTPAPI exception handler
(vaults.py line 218). -/
inductive GetResult where
  | pair (key : Option String) (vault : Option Vault)
  | pynone
deriving DecidableEq

/-- `Vaults.get` (vaults.py lines 185-258).  Scans the vault list in order.
HTTP kind: the server's `keys` list answers; non-empty means hit with its
first key, empty falls through to the next vault.  HTTPAPI kind: on a
successful RPC the branch returns `(first key whose kid equals kid, vault)`
unconditionally; a raised RPC error is caught and logged and the branch
returns the bare `None`.  DB kinds: skip the vault when the service table
does not exist (`table_exists` itself raises when the ticket is missing),
then return the first row whose kid matches, else fall through.  The
opportunistic title backfill of lines 246-256 only rewrites the stored
title of the row just found and never changes the value returned, so this
model of the returned value omits that write. -/
def vaultsGet (service kid title : String) : List Vault → Except PyError GetResult
  | [] => .ok (.pair none none)
  | v :: rest =>
    match v.vtype with
    | .HTTP =>
      match v.env.httpKeys with
      | [] => vaultsGet service kid title rest
      | e :: _ => .ok (.pair (some e.key) (some v))
    | .HTTPAPI =>
      match v.env.apiGet with
      | .ok ks =>
        .ok (.pair (first_or_none ((ks.filter (fun x => x.kid == kid)).map
          (fun x => x.key))) (some v))
      | .error _ => .ok .pynone
    | _ =>
      match table_exists v service with
      | .error e => .error e
      | .ok false => vaultsGet service kid title rest
      | .ok true =>
        if !v.hasTicket then
          .error (.valueError (noTicketMsg v.name))
        else
          match ((dbGetTable v.env.db service).getD []).find?
              (fun r => ciEq r.kid kid) with
          | some r => .ok (.pair (some r.key_) (some v))
          | none => vaultsGet service kid title rest

/-- `Vaults.insert_key` (vaults.py lines 330-397).  HTTP kind: map the
`{status_code, inserted}` response.  HTTPAPI kind: a raised RPC error
propagates; otherwise the boolean `inserted` maps to SUCCESS/FAILURE.  DB
kinds: FAILURE when the target table is missing; `ValueError` without a
ticket or without INSERT permission on the target table; then the
duplicate-check `SELECT` runs against the registry's service table
(`self.service`, line 379-381) while the `INSERT` writes to the
caller-supplied `table` (line 389-391). -/
def insert_key (service : String) (v : Vault) (table kid key title : String) :
    Except PyError (InsertResult × Vault) :=
  match v.vtype with
  | .HTTP =>
    let keys := v.env.httpInsert
    if keys.status_code == 200 && keys.inserted then
      .ok (.SUCCESS, v)
    else if keys.status_code == 200 then
      .ok (.ALREADY_EXISTS, v)
    else
      .ok (.FAILURE, v)
  | .HTTPAPI =>
    match v.env.apiInsert with
    | .error e => .error (.valueError e)
    | .ok res => if res then .ok (.SUCCESS, v) else .ok (.FAILURE, v)
  | _ =>
    match table_exists v table with
    | .error e => .error e
    | .ok false => .ok (.FAILURE, v)
    | .ok true =>
      if !v.hasTicket then
        .error (.valueError (noTicketMsg v.name))
      else if !(has_permission v.perms "INSERT" none (some table)) then
        .error (.valueError
          ("Cannot insert key into Vault. Vault " ++ v.name ++ " has no INSERT permission."))
      else
        match dbGetTable v.env.db service with
        | none => .error (.operationalError ("no such table: " ++ service))
        | some rows =>
          if rows.any (fun r => ciEq r.kid kid && ciEq r.key_ key) then
            .ok (.ALREADY_EXISTS, v)
          else
            match dbInsert v.env.db table kid key title with
            | .error e => .error e
            | .ok db2 => .ok (.SUCCESS, { v with env := { v.env with db := db2 } })

/-- The sort key of `Vaults.__init__` (vaults.py line 143): `0` for LOCAL
vaults, `1` for everything else. -/
def vaultKey (v : Vault) : Nat :=
  if v.vtype == .LOCAL then 0 else 1

/-- Stable insertion: place `v` before the first element whose key is not
smaller.  Folded over the input this is a stable sort, the semantics Python's
`sorted` guarantees. -/
def stableInsert (v : Vault) : List Vault → List Vault
  | [] => [v]
  | w :: ws => if vaultKey v ≤ vaultKey w then v :: w :: ws else w :: stableInsert v ws

/-- `sorted(vaults, key=lambda v: 0 if v.type is Vault.Types.LOCAL else 1)`
(vaults.py lines 142-144), as a stable sort by `vaultKey`. -/
def sortVaults (vs : List Vault) : List Vault :=
  vs.foldr stableInsert []

/-- A vault that `Vaults.get` passes over without returning: an HTTP vault
whose server reports no keys, or a DB-kind vault holding a ticket whose
service table has no row matching the kid (including the table being
absent). -/
def vaultMiss (service kid : String) (v : Vault) : Bool :=
  match v.vtype with
  | .HTTP => v.env.httpKeys.isEmpty
  | .HTTPAPI => false
  | _ =>
    v.hasTicket &&
      (((dbGetTable v.env.db service).getD []).find? (fun r => ciEq r.kid kid)).isNone

/-- The vault state after a successful DB-kind insert of `(kid, key, title)`
into table `service` whose previous rows were `rows`. -/
def afterInsert (v : Vault) (service kid key title : String) (rows : Table) : Vault :=
  { v with env := { v.env with
      db := dbSetTable v.env.db service (rows ++ [⟨nextId rows, kid, key, some title⟩]) } }

/-! ## Concrete vaults used by the witnesses and counterexamples -/

/-- A backend world with empty database and benign responses. -/
def emptyEnv : BackendEnv :=
  { db := [], httpKeys := [], apiGet := .ok [], httpInsert := ⟨200, true⟩, apiInsert := .ok true }

/-- A LOCAL vault holding a loaded ticket and the given database. -/
def mkDbVault (nm : String) (db : DB) : Vault :=
  { vtype := .LOCAL, name := nm, perms := [wildcardGrant], hasTicket := true,
    env := { emptyEnv with db := db } }

/-- An HTTPAPI vault whose GetKey RPC resolves to `r`. -/
def mkApiVault (nm : String) (r : Except String (List HttpKeyEntry)) : Vault :=
  { vtype := .HTTPAPI, name := nm, perms := [wildcardGrant], hasTicket := false,
    env := { emptyEnv with apiGet := r } }

/-- An HTTP vault whose lookup response carries the key list `ks`. -/
def mkHttpVault (nm : String) (ks : List HttpKeyEntry) : Vault :=
  { vtype := .HTTP, name := nm, perms := [wildcardGrant], hasTicket := false,
    env := { emptyEnv with httpKeys := ks } }

/-- An HTTPAPI vault whose GetKey RPC raises. -/
def vA1 : Vault := mkApiVault "api1" (.error "connection refused")

/-- An HTTP vault that stores `kid1 → deadbeef`. -/
def vB1 : Vault := mkHttpVault "http1" [⟨"kid1", "deadbeef"⟩]

/-- An HTTPAPI vault whose GetKey RPC succeeds with an empty key list. -/
def vA2 : Vault := mkApiVault "A" (.ok [])

/-- An HTTP vault that stores `kid1 → deadbeef`. -/
def vB2 : Vault := mkHttpVault "B" [⟨"kid1", "deadbeef"⟩]

/-- An HTTP vault that stores `kid1 → cafef00d`. -/
def vC2 : Vault := mkHttpVault "C" [⟨"kid1", "cafef00d"⟩]

/-- A LOCAL vault with an empty `svc` table (no match for any kid). -/
def vA3 : Vault := mkDbVault "A" [("svc", [])]

/-- A LOCAL vault storing `kid1 → deadbeef` in its `svc` table. -/
def vB3 : Vault := mkDbVault "B" [("svc", [⟨1, "kid1", "deadbeef", some "T"⟩])]

/-- A LOCAL vault storing `kid1 → cafef00d` in its `svc` table. -/
def vC3 : Vault := mkDbVault "C" [("svc", [⟨1, "kid1", "cafef00d", some "T"⟩])]

/-- A LOCAL vault with empty `svc` and `other` tables. -/
def vD : Vault := mkDbVault "db1" [("svc", []), ("other", [])]

/-- `vD` after `(k1, key1, TT)` has been written to its `other` table. -/
def vD2 : Vault :=
  { vD with env := { vD.env with
      db := [("svc", []), ("other", [⟨1, "k1", "key1", some "TT"⟩])] } }

/-- A LOCAL vault whose `svc` table already stores `(k1, key1)` and whose
`other` table is empty. -/
def vE : Vault := mkDbVault "e" [("svc", [⟨1, "k1", "key1", some "T"⟩]), ("other", [])]

/-- A grant list with no SELECT operation anywhere. -/
def noSelectGrants : List Grant := [(["INSERT"], ("*", "*"))]

/-- Whether a construction attempt failed specifically with
`PyError.permissionError`. -/
def raisesPermissionError (r : Except PyError Vault) : Bool :=
  match r with
  | .error (.permissionError _) => true
  | _ => false

/-! ## C1 — RPC errors during the multi-vault scan -/

/-- C1 counterexample: with an HTTPAPI vault whose GetKey RPC raises placed
(in registry order) before an HTTP vault that does hold the key, `get`
returns the bare `None` of the exception handler instead of continuing the
scan and returning the hit from the second vault. -/
theorem c1_counterexample :
    sortVaults [vA1, vB1] = [vA1, vB1] ∧
    vaultsGet "svc" "kid1" "Title" [vB1] = .ok (.pair (some "deadbeef") (some vB1)) ∧
    vaultsGet "svc" "kid1" "Title" [vA1, vB1] = .ok GetResult.pynone ∧
    vaultsGet "svc" "kid1" "Title" [vA1, vB1] ≠
      .ok (.pair (some "deadbeef") (some vB1)) := by
  decide

/-- C1 (amended): an RPC-level error raised by an HttpApi vault's lookup is
caught and logged and does not propagate as an exception, but it is not a
per-vault miss: `Vaults.get` immediately returns the bare `None`, so the
scan stops and the remaining vaults are never consulted. -/
theorem c1_rpc_error_aborts_scan (service kid title : String) (v : Vault)
    (rest : List Vault) (e : String)
    (hv : v.vtype = .HTTPAPI) (he : v.env.apiGet = .error e) :
    vaultsGet service kid title (v :: rest) = .ok GetResult.pynone := by
  rcases v with ⟨vt, nm, pm, ht, env⟩
  simp only at hv he
  subst hv
  simp [vaultsGet, he]

/-- C1 witness: the amended theorem applied to the concrete failing HTTPAPI
vault `vA1` followed by the live vault `vB1`. -/
theorem c1_rpc_error_aborts_scan_witness :
    vA1.vtype = .HTTPAPI ∧ vA1.env.apiGet = .error "connection refused" ∧
    vaultsGet "svc" "kid1" "Title" [vA1, vB1] = .ok GetResult.pynone :=
  ⟨rfl, rfl,
    c1_rpc_error_aborts_scan "svc" "kid1" "Title" vA1 [vB1] "connection refused" rfl rfl⟩

/-! ## C3 — `table_exists` on the HTTP-kind vaults -/

/-- C3 counterexample: on an HTTPAPI vault (which the registry never gives a
ticket), `table_exists` does not return true — it raises the missing-ticket
`ValueError`. -/
theorem c3_counterexample :
    table_exists vA1 "anytable" =
      .error (.valueError "Vault api1 does not have a valid ticket available.") ∧
    table_exists vA1 "anytable" ≠ .ok true := by
  decide

/-- C3 (amended): `table_exists` returns true for every table argument on an
HttpStore vault and never raises there; an HttpApiStore vault is not
special-cased, so without a ticket (the registry loads tickets only for
LOCAL/REMOTE vaults) it raises the missing-ticket `ValueError`. -/
theorem c3_table_exists (v : Vault) (t : String) :
    (v.vtype = .HTTP → table_exists v t = .ok true) ∧
    (v.vtype = .HTTPAPI → v.hasTicket = false →
      table_exists v t = .error (.valueError (noTicketMsg v.name))) := by
  constructor
  · intro hv
    simp [table_exists, hv]
  · intro hv hticket
    simp [table_exists, hv, hticket]

/-- C3 witness: the amended theorem applied to the HTTP vault `vB1` and the
ticketless HTTPAPI vault `vA1`. -/
theorem c3_table_exists_witness :
    (vB1.vtype = .HTTP ∧ table_exists vB1 "x" = .ok true) ∧
    (vA1.vtype = .HTTPAPI ∧ vA1.hasTicket = false ∧
      table_exists vA1 "x" = .error (.valueError (noTicketMsg vA1.name))) :=
  ⟨⟨rfl, (c3_table_exists vB1 "x").1 rfl⟩,
    ⟨rfl, rfl, (c3_table_exists vA1 "x").2 rfl rfl⟩⟩

/-! ## C2 — first-hit semantics of the scan -/

/-- A vault the scan passes over contributes nothing: `get` on it continues
with the remaining vaults. -/
theorem vaultMiss_skip (service kid title : String) (v : Vault) (rest : List Vault)
    (h : vaultMiss service kid v = true) :
    vaultsGet service kid title (v :: rest) = vaultsGet service kid title rest := by
  rcases v with ⟨vt, nm, pm, ht, env⟩
  simp only [vaultMiss] at h
  cases vt with
  | HTTP =>
    have hk : env.httpKeys = [] := by
      cases hh : env.httpKeys with
      | nil => rfl
      | cons a as => rw [hh] at h; simp [List.isEmpty] at h
    simp [vaultsGet, hk]
  | HTTPAPI => simp at h
  | LOCAL =>
    rw [Bool.and_eq_true] at h
    obtain ⟨hticket, hfind⟩ := h
    subst hticket
    cases hdb : dbGetTable env.db service with
    | none => simp [vaultsGet, table_exists, hdb]
    | some rows =>
      rw [hdb] at hfind
      simp only [Option.getD_some, Option.isNone_iff_eq_none] at hfind
      simp [vaultsGet, table_exists, hdb, hfind]
  | REMOTE =>
    rw [Bool.and_eq_true] at h
    obtain ⟨hticket, hfind⟩ := h
    subst hticket
    cases hdb : dbGetTable env.db service with
    | none => simp [vaultsGet, table_exists, hdb]
    | some rows =>
      rw [hdb] at hfind
      simp only [Option.getD_some, Option.isNone_iff_eq_none] at hfind
      simp [vaultsGet, table_exists, hdb, hfind]

/-- C2 counterexample: with an HTTPAPI vault whose key list has no match for
the kid placed (in registry order) before vaults `B` and `C` that do map the
kid, `get` does not skip to `B`: it ends the scan at the HTTPAPI vault and
returns `(None, A)` — neither `("deadbeef", B)` nor `(None, None)`. -/
theorem c2_counterexample :
    sortVaults [vA2, vB2, vC2] = [vA2, vB2, vC2] ∧
    vaultsGet "svc" "kid1" "Title" [vA2, vB2, vC2] = .ok (.pair none (some vA2)) ∧
    vaultsGet "svc" "kid1" "Title" [vA2, vB2, vC2] ≠
      .ok (.pair (some "deadbeef") (some vB2)) ∧
    vaultsGet "svc" "kid1" "Title" [vA2, vB2, vC2] ≠ .ok (.pair none none) ∧
    vaultsGet "svc" "kid1" "Title" [vB2, vC2] =
      .ok (.pair (some "deadbeef") (some vB2)) := by
  decide

/-- C2 (amended): `Vaults.get` iterates the vaults in registry order and
returns `(key, vault)` at the first hit, and a scan in which every vault
misses — an HTTP vault with an empty key list, or a DB-kind vault (holding
a ticket) whose service table has no row for the kid — returns
`(None, None)`; but an HttpApi vault whose RPC succeeds always terminates
the scan, returning `(first key matching kid or None, that vault)` even
when its key list holds no match.  The concrete `A`/`B`/`C` example holds
as stated when `A` is not an HttpApi vault. -/
theorem c2_get_scan :
    (∀ (service kid title : String) (vs : List Vault),
      (∀ v ∈ vs, vaultMiss service kid v = true) →
      vaultsGet service kid title vs = .ok (.pair none none)) ∧
    (∀ (service kid title : String) (v : Vault) (rest : List Vault)
      (ks : List HttpKeyEntry), v.vtype = .HTTPAPI → v.env.apiGet = .ok ks →
      vaultsGet service kid title (v :: rest) =
        .ok (.pair (first_or_none ((ks.filter (fun x => x.kid == kid)).map
          (fun x => x.key))) (some v))) ∧
    vaultsGet "svc" "kid1" "Title" (sortVaults [vA3, vB3, vC3]) =
      .ok (.pair (some "deadbeef") (some vB3)) := by
  refine ⟨?_, ?_, by decide⟩
  · intro service kid title vs hmiss
    induction vs with
    | nil => simp [vaultsGet]
    | cons v rest ih =>
      rw [vaultMiss_skip service kid title v rest (hmiss v (List.mem_cons_self v rest))]
      exact ih (fun w hw => hmiss w (List.mem_cons_of_mem v hw))
  · intro service kid title v rest ks hv hks
    rcases v with ⟨vt, nm, pm, ht, env⟩
    simp only at hv hks
    subst hv
    simp [vaultsGet, hks]

/-- C2 witness: the amended theorem applied to an all-miss list (the
DB vault `vA3`, whose `svc` table has no row for `kid9`) and to the concrete
HTTPAPI vault `vA2` with an empty key list. -/
theorem c2_get_scan_witness :
    (vaultMiss "svc" "kid9" vA3 = true ∧
      vaultsGet "svc" "kid9" "Title" [vA3] = .ok (.pair none none)) ∧
    (vA2.vtype = .HTTPAPI ∧ vA2.env.apiGet = .ok [] ∧
      vaultsGet "svc" "kid1" "Title" [vA2] =
        .ok (.pair (first_or_none ((([] : List HttpKeyEntry).filter
          (fun x => x.kid == "kid1")).map (fun x => x.key))) (some vA2))) :=
  ⟨⟨by decide, c2_get_scan.1 "svc" "kid9" "Title" [vA3]
      (by intro v hv; simp only [List.mem_singleton] at hv; subst hv; decide)⟩,
    ⟨rfl, rfl, c2_get_scan.2.1 "svc" "kid1" "Title" vA2 [] [] rfl rfl⟩⟩

/-! ## C4 / C10 — duplicate detection in `insert_key` -/

/-- `dbSetTable` really stores the rows: reading back the table that was
just replaced (and that existed before) yields the new rows. -/
theorem dbGetTable_dbSetTable (db : DB) (t : String) (rows : Table)
    (h : (dbGetTable db t).isSome = true) :
    dbGetTable (dbSetTable db t rows) t = some rows := by
  induction db with
  | nil => simp [dbGetTable] at h
  | cons e es ih =>
    by_cases he : (e.1 == t) = true
    · simp [dbGetTable, dbSetTable, List.find?, he]
    · have he' : (e.1 == t) = false := by
        cases hb : (e.1 == t) with
        | false => rfl
        | true => exact absurd hb he
      have h1 : dbSetTable (e :: es) t rows = e :: dbSetTable es t rows := by
        simp only [dbSetTable, List.map_cons]
        rw [if_neg he]
      have h2 : ∀ l : DB, dbGetTable (e :: l) t = dbGetTable l t := by
        intro l
        simp [dbGetTable, List.find?, he']
      rw [h1, h2]
      refine ih ?_
      rw [h2 es] at h
      exact h

/-- `ciEq` is reflexive. -/
theorem ciEq_refl (a : String) : ciEq a a = true := by
  simp [ciEq]

/-- Reduction of `insert_key` on a DB-kind vault once all its gates pass:
the duplicate check consults the rows of the registry's `service` table,
and the write is a `dbInsert` into the caller-supplied `table`. -/
theorem insert_key_db (service table kid key title : String) (v : Vault)
    (hv : v.vtype = .LOCAL ∨ v.vtype = .REMOTE) (hticket : v.hasTicket = true)
    (hperm : has_permission v.perms "INSERT" none (some table) = true)
    (htab : (dbGetTable v.env.db table).isSome = true)
    (rows : Table) (hsvc : dbGetTable v.env.db service = some rows) :
    insert_key service v table kid key title =
      if rows.any (fun r => ciEq r.kid kid && ciEq r.key_ key) then
        .ok (.ALREADY_EXISTS, v)
      else
        match dbInsert v.env.db table kid key title with
        | .error e => .error e
        | .ok db2 => .ok (.SUCCESS, { v with env := { v.env with db := db2 } }) := by
  rcases v with ⟨vt, nm, pm, ht, env⟩
  simp only at hticket hperm htab hsvc
  subst hticket
  rcases hv with hv | hv <;> simp only at hv <;> subst hv <;>
    simp [insert_key, table_exists, htab, hperm, hsvc]

/-- C4 counterexample: on the LOCAL vault `vD` (empty tables `svc` and
`other`, service = `svc`), inserting `(k1, key1)` twice into the same vault
and the same existing table `other` (INSERT permitted) yields SUCCESS and
then a raw uniqueness-constraint violation from the database, not
ALREADY_EXISTS: the duplicate check looked at table `svc` both times. -/
theorem c4_counterexample :
    insert_key "svc" vD "other" "k1" "key1" "TT" = .ok (.SUCCESS, vD2) ∧
    insert_key "svc" vD2 "other" "k1" "key1" "TT" =
      .error (.integrityError "UNIQUE constraint failed: kid, key_") ∧
    insert_key "svc" vD2 "other" "k1" "key1" "TT" ≠
      .ok (.ALREADY_EXISTS, vD2) := by
  decide

/-- C4 (amended): inserting the same `(kid, key)` pair twice into the same
DB-kind vault returns SUCCESS and then ALREADY_EXISTS — the duplicate is
reported as a result value, not as a raw constraint violation — provided
the table argument is the registry's service table (the table the
duplicate-detection SELECT always queries); the table exists; and INSERT
is permitted. -/
theorem c4_dedup_on_service_table (service kid key title : String) (v : Vault)
    (rows : Table)
    (hv : v.vtype = .LOCAL ∨ v.vtype = .REMOTE) (hticket : v.hasTicket = true)
    (hperm : has_permission v.perms "INSERT" none (some service) = true)
    (hsvc : dbGetTable v.env.db service = some rows)
    (hnodup : rows.any (fun r => ciEq r.kid kid && ciEq r.key_ key) = false) :
    insert_key service v service kid key title =
      .ok (.SUCCESS, afterInsert v service kid key title rows) ∧
    insert_key service (afterInsert v service kid key title rows) service kid key title =
      .ok (.ALREADY_EXISTS, afterInsert v service kid key title rows) := by
  have htab : (dbGetTable v.env.db service).isSome = true := by rw [hsvc]; rfl
  have hset : dbGetTable (afterInsert v service kid key title rows).env.db service =
      some (rows ++ [⟨nextId rows, kid, key, some title⟩]) :=
    dbGetTable_dbSetTable v.env.db service _ htab
  constructor
  · rw [insert_key_db service service kid key title v hv hticket hperm htab rows hsvc]
    rw [if_neg (by rw [hnodup]; exact Bool.false_ne_true)]
    simp only [dbInsert, hsvc, hnodup, Bool.false_eq_true, if_false]
    rfl
  · rw [insert_key_db service service kid key title (afterInsert v service kid key title rows)
      (by simpa [afterInsert] using hv) (by simpa [afterInsert] using hticket)
      (by simpa [afterInsert] using hperm)
      (by rw [hset]; rfl) _ hset]
    rw [if_pos]
    rw [List.any_append]
    simp [ciEq_refl]

/-- C4 witness: the amended theorem applied to the LOCAL vault `vD` with
service table `svc`. -/
theorem c4_dedup_on_service_table_witness :
    (vD.vtype = .LOCAL ∨ vD.vtype = .REMOTE) ∧ vD.hasTicket = true ∧
    has_permission vD.perms "INSERT" none (some "svc") = true ∧
    dbGetTable vD.env.db "svc" = some [] ∧
    (insert_key "svc" vD "svc" "k1" "key1" "TT" =
        .ok (.SUCCESS, afterInsert vD "svc" "k1" "key1" "TT" []) ∧
      insert_key "svc" (afterInsert vD "svc" "k1" "key1" "TT" []) "svc" "k1" "key1" "TT" =
        .ok (.ALREADY_EXISTS, afterInsert vD "svc" "k1" "key1" "TT" [])) :=
  ⟨Or.inl rfl, rfl, by decide, rfl,
    c4_dedup_on_service_table "svc" "k1" "key1" "TT" vD [] (Or.inl rfl) rfl
      (by decide) rfl rfl⟩

/-- C10 (as stated): on a DB-kind vault whose gates pass, the
duplicate-detection SELECT of `insert_key` always queries the registry's
service table — a `(kid, key)` pair present there yields ALREADY_EXISTS no
matter what the `table` argument holds — while the subsequent INSERT is a
`dbInsert` into the caller-supplied `table`; so the SUCCESS-then-
ALREADY_EXISTS dedup behaviour of C4 is guaranteed only when `table` is
the service table, the two targets otherwise being different tables. -/
theorem c10_dedup_select_targets_service_table (service table kid key title : String)
    (v : Vault) (rows : Table)
    (hv : v.vtype = .LOCAL ∨ v.vtype = .REMOTE) (hticket : v.hasTicket = true)
    (hperm : has_permission v.perms "INSERT" none (some table) = true)
    (htab : (dbGetTable v.env.db table).isSome = true)
    (hsvc : dbGetTable v.env.db service = some rows) :
    (rows.any (fun r => ciEq r.kid kid && ciEq r.key_ key) = true →
      insert_key service v table kid key title = .ok (.ALREADY_EXISTS, v)) ∧
    (rows.any (fun r => ciEq r.kid kid && ciEq r.key_ key) = false →
      insert_key service v table kid key title =
        (dbInsert v.env.db table kid key title).map
          (fun db2 => (InsertResult.SUCCESS, { v with env := { v.env with db := db2 } }))) := by
  rw [insert_key_db service table kid key title v hv hticket hperm htab rows hsvc]
  constructor
  · intro hdup
    rw [if_pos hdup]
  · intro hdup
    rw [if_neg (by rw [hdup]; exact Bool.false_ne_true)]
    cases hins : dbInsert v.env.db table kid key title with
    | error e => simp [Except.map]
    | ok db2 => simp [Except.map]

/-- C10 witness: on the vault `vE`, whose `svc` service table already holds
`(k1, key1)` while its `other` table is empty, inserting `(k1, key1)` into
`other` is reported ALREADY_EXISTS — the duplicate check read `svc`, not the
insert target `other`. -/
theorem c10_dedup_select_targets_service_table_witness :
    (vE.vtype = .LOCAL ∨ vE.vtype = .REMOTE) ∧ vE.hasTicket = true ∧
    dbGetTable vE.env.db "svc" = some [⟨1, "k1", "key1", some "T"⟩] ∧
    dbGetTable vE.env.db "other" = some [] ∧
    insert_key "svc" vE "other" "k1" "key1" "TT" = .ok (.ALREADY_EXISTS, vE) :=
  ⟨Or.inl rfl, rfl, rfl, rfl,
    (c10_dedup_select_targets_service_table "svc" "other" "k1" "key1" "TT" vE
      [⟨1, "k1", "key1", some "T"⟩] (Or.inl rfl) rfl (by decide) (by decide) rfl).1
      (by decide)⟩

/-! ## C5 — insert result mapping for the HTTP-kind vaults -/

/-- C5: on an HttpStore vault `insert_key` returns SUCCESS exactly for
`status_code = 200` with `inserted`, ALREADY_EXISTS exactly for
`status_code = 200` without `inserted`, FAILURE exactly otherwise; on an
HttpApiStore vault a successful RPC maps `inserted` to SUCCESS/FAILURE and
the result is never ALREADY_EXISTS. -/
theorem c5_insert_result_mapping (service : String) (v : Vault)
    (table kid key title : String) :
    (v.vtype = .HTTP →
      ((insert_key service v table kid key title = .ok (.SUCCESS, v)) ↔
        (v.env.httpInsert.status_code = 200 ∧ v.env.httpInsert.inserted = true)) ∧
      ((insert_key service v table kid key title = .ok (.ALREADY_EXISTS, v)) ↔
        (v.env.httpInsert.status_code = 200 ∧ v.env.httpInsert.inserted = false)) ∧
      ((insert_key service v table kid key title = .ok (.FAILURE, v)) ↔
        ¬(v.env.httpInsert.status_code = 200))) ∧
    (v.vtype = .HTTPAPI →
      (∀ b : Bool, v.env.apiInsert = .ok b →
        insert_key service v table kid key title =
          .ok ((if b then .SUCCESS else .FAILURE), v)) ∧
      (∀ (r : InsertResult) (w : Vault),
        insert_key service v table kid key title = .ok (r, w) →
        r ≠ .ALREADY_EXISTS)) := by
  rcases v with ⟨vt, nm, pm, ht, env⟩
  constructor
  · intro hv
    simp only at hv
    subst hv
    by_cases hs : env.httpInsert.status_code = 200 <;>
      cases hi : env.httpInsert.inserted <;>
        simp [insert_key, hs, hi]
  · intro hv
    simp only at hv
    subst hv
    constructor
    · intro b hb
      have hb' : env.apiInsert = Except.ok b := hb
      cases b <;> simp [insert_key, hb']
    · intro r w hr
      cases hapi : env.apiInsert with
      | error e =>
        have hred : insert_key service ⟨.HTTPAPI, nm, pm, ht, env⟩ table kid key title =
            .error (.valueError e) := by simp [insert_key, hapi]
        rw [hred] at hr
        cases hr
      | ok b =>
        have hred : insert_key service ⟨.HTTPAPI, nm, pm, ht, env⟩ table kid key title =
            .ok ((if b then .SUCCESS else .FAILURE), ⟨.HTTPAPI, nm, pm, ht, env⟩) := by
          cases b <;> simp [insert_key, hapi]
        rw [hred] at hr
        simp only [Except.ok.injEq, Prod.mk.injEq] at hr
        obtain ⟨h1, -⟩ := hr
        rw [← h1]
        cases b <;> simp

/-- C5 witness: the mapping applied to the HTTP vault `vB1` (whose insert
response is `{status_code := 200, inserted := true}`) and to the HTTPAPI
vault `vA1` (whose InsertKey RPC reports `inserted = true`). -/
theorem c5_insert_result_mapping_witness :
    insert_key "svc" vB1 "tbl" "k" "x" "T" = .ok (.SUCCESS, vB1) ∧
    insert_key "svc" vA1 "tbl" "k" "x" "T" = .ok ((if true then .SUCCESS else .FAILURE), vA1) :=
  ⟨((c5_insert_result_mapping "svc" vB1 "tbl" "k" "x" "T").1 rfl).1.mpr ⟨rfl, rfl⟩,
    ((c5_insert_result_mapping "svc" vA1 "tbl" "k" "x" "T").2 rfl).1 true rfl⟩

/-! ## C6 — the construction-time SELECT gate -/

/-- C6 counterexample: constructing a REMOTE vault whose derived grants hold
no SELECT permission fails with `ValueError` — not with `PermissionError`. -/
theorem c6_counterexample :
    vaultInit .REMOTE "v1" noSelectGrants emptyEnv =
      .error (.valueError "Cannot use vault. Vault v1 has no SELECT permission.") ∧
    raisesPermissionError (vaultInit .REMOTE "v1" noSelectGrants emptyEnv) = false := by
  decide

/-- C6 (amended): constructing a Vault whose derived permission grants
contain no SELECT permission anywhere fails — with `ValueError`, the only
exception type the source raises here — so construction never completes for
a vault that cannot prove SELECT and every successfully constructed vault is
at least readable. -/
theorem c6_no_select_fails_construction (name : String) (grants : List Grant)
    (env : BackendEnv)
    (h : ∀ g ∈ grants, ¬(g.1 = ["*"]) ∧ ¬("SELECT" ∈ g.1)) :
    vaultInit .REMOTE name grants env =
      .error (.valueError ("Cannot use vault. Vault " ++ name ++ " has no SELECT permission.")) := by
  have hup : strUpper "SELECT" = "SELECT" := by decide
  have hfil : grants.filter
      (fun x => x.1 == ["*"] || x.1.contains (strUpper "SELECT")) = [] := by
    rw [List.filter_eq_nil_iff]
    intro g hg
    rcases h g hg with ⟨h1, h2⟩
    rw [hup]
    simp [h1, h2]
  have hperm : has_permission (get_permissions .REMOTE grants) "SELECT" none none = false := by
    simp only [has_permission, get_permissions]
    rw [hfil]
    rfl
  simp only [vaultInit]
  rw [if_neg (by rw [hperm]; exact Bool.false_ne_true)]

/-- C6 witness: the amended theorem applied to the concrete INSERT-only
grant list. -/
theorem c6_no_select_fails_construction_witness :
    (∀ g ∈ noSelectGrants, ¬(g.1 = ["*"]) ∧ ¬("SELECT" ∈ g.1)) ∧
    vaultInit .REMOTE "v1" noSelectGrants emptyEnv =
      .error (.valueError ("Cannot use vault. Vault " ++ "v1" ++ " has no SELECT permission.")) :=
  ⟨by decide, c6_no_select_fails_construction "v1" noSelectGrants emptyEnv (by decide)⟩

/-! ## C7 — characterization of `has_permission` -/

/-- A grant survives all applicable filters of `has_permission`: its
operation list is the wildcard or contains the uppercased operation (the
operation is matched with its own case ignored), and each given scope
component is matched exactly or by `"*"`. -/
def grantSurvives (operation : String) (database table : Option String)
    (g : Grant) : Prop :=
  (g.1 = ["*"] ∨ strUpper operation ∈ g.1) ∧
  (∀ d, database = some d → (g.2.1 = d ∨ g.2.1 = "*")) ∧
  (∀ t, table = some t → (g.2.2 = t ∨ g.2.2 = "*"))

/-- The grant `(["INSERT","SELECT"], ("*","mytable"))` of the spec's
example. -/
def demoGrant : Grant := (["INSERT", "SELECT"], ("*", "mytable"))

/-- The same grant with wildcard table scope. -/
def demoGrantStar : Grant := (["INSERT", "SELECT"], ("*", "*"))

/-- The emptiness guard around each scope filter of `has_permission` is
equivalent to filtering unconditionally. -/
theorem guarded_filter {α : Type} (l : List α) (p : α → Bool) :
    (if l.isEmpty then l else l.filter p) = l.filter p := by
  cases l <;> simp

/-- A filtered list is non-empty iff some element satisfies the filter. -/
theorem not_isEmpty_filter {α : Type} (l : List α) (p : α → Bool) :
    (!(l.filter p).isEmpty) = true ↔ ∃ a ∈ l, p a = true := by
  constructor
  · intro hh
    cases hfl : l.filter p with
    | nil => rw [hfl] at hh; simp at hh
    | cons a as =>
      have ha : a ∈ l.filter p := by rw [hfl]; exact List.mem_cons_self a as
      rcases List.mem_filter.mp ha with ⟨h1, h2⟩
      exact ⟨a, h1, h2⟩
  · rintro ⟨a, ha, hp⟩
    have hmem : a ∈ l.filter p := List.mem_filter.mpr ⟨ha, hp⟩
    cases hfl : l.filter p with
    | nil => rw [hfl] at hmem; cases hmem
    | cons b bs => rfl

set_option linter.unnecessarySeqFocus false in
/-- C7: `has_permission` returns true iff some grant survives all applicable
filters — operation list containing the uppercased operation or being the
wildcard, then (when given) database scope matching exactly or by `"*"`,
then (when given) table scope likewise — together with the spec's three
concrete instances on the grant `(["INSERT","SELECT"], ("*","mytable"))`. -/
theorem c7_has_permission_characterization :
    (∀ (perms : List Grant) (op : String) (db tbl : Option String),
      has_permission perms op db tbl = true ↔ ∃ g ∈ perms, grantSurvives op db tbl g) ∧
    has_permission [demoGrant] "SELECT" none (some "mytable") = true ∧
    has_permission [demoGrant] "SELECT" none (some "other") = false ∧
    has_permission [demoGrantStar] "SELECT" none (some "other") = true := by
  refine ⟨?_, by decide, by decide, by decide⟩
  intro perms op db tbl
  rcases db with _ | d <;> rcases tbl with _ | t <;>
    simp only [has_permission, guarded_filter] <;>
    rw [not_isEmpty_filter] <;>
    simp [grantSurvives, List.mem_filter, and_assoc] <;>
    (constructor <;> (rintro ⟨a, b, c, h1, h2, h3, h4⟩; exact ⟨a, b, c, h1, h3, h2, h4⟩))

/-- C7 witness: the characterization applied at the wildcard-scoped demo
grant with an operation, database and table all given. -/
theorem c7_has_permission_characterization_witness :
    has_permission [demoGrantStar] "insert" (some "anydb") (some "anytable") = true :=
  (c7_has_permission_characterization.1 [demoGrantStar] "insert"
      (some "anydb") (some "anytable")).mpr
    ⟨demoGrantStar, List.mem_singleton.mpr rfl,
      Or.inr (by decide), fun d hd => Or.inr rfl, fun t ht => Or.inr rfl⟩

/-! ## C8 — local-first stable ordering of the registry -/

/-- Inserting a LOCAL vault always goes to the front: its key `0` is below
every key. -/
theorem stableInsert_local (v : Vault) (l : List Vault)
    (h : (v.vtype == VaultType.LOCAL) = true) :
    stableInsert v l = v :: l := by
  cases l with
  | nil => rfl
  | cons w ws =>
    have hk : vaultKey v = 0 := by simp [vaultKey, h]
    simp [stableInsert, hk]

/-- Inserting a non-LOCAL vault into a block of LOCAL vaults followed by a
block of non-LOCAL vaults lands right between the blocks. -/
theorem stableInsert_nonlocal (v : Vault) (L N : List Vault)
    (h : (v.vtype == VaultType.LOCAL) = false)
    (hL : ∀ w ∈ L, (w.vtype == VaultType.LOCAL) = true)
    (hN : ∀ w ∈ N, (w.vtype == VaultType.LOCAL) = false) :
    stableInsert v (L ++ N) = L ++ v :: N := by
  have hkv : vaultKey v = 1 := by simp [vaultKey, h]
  induction L with
  | nil =>
    cases N with
    | nil => rfl
    | cons n ns =>
      have hkn : vaultKey n = 1 := by
        simp [vaultKey, hN n (List.mem_cons_self n ns)]
      simp [stableInsert, hkv, hkn]
  | cons w ws ih =>
    have hkw : vaultKey w = 0 := by
      simp [vaultKey, hL w (List.mem_cons_self w ws)]
    simp only [List.cons_append, stableInsert, hkv, hkw]
    rw [if_neg (by omega)]
    simp only [List.append_eq]
    rw [ih (fun u hu => hL u (List.mem_cons_of_mem w hu))]

/-- C8: the registry's vault order is the stable local-first partition of
the input: `sortVaults` sends any input sequence to its LOCAL vaults (in
input order) followed by its non-LOCAL vaults (in input order), so every
Local vault precedes every Remote/Http/HttpApi vault and the relative order
within each class is that of the input. -/
theorem c8_sort_is_stable_partition (vs : List Vault) :
    sortVaults vs =
      vs.filter (fun v => v.vtype == VaultType.LOCAL) ++
        vs.filter (fun v => !(v.vtype == VaultType.LOCAL)) := by
  induction vs with
  | nil => rfl
  | cons v rest ih =>
    have hsort : sortVaults (v :: rest) = stableInsert v (sortVaults rest) := rfl
    rw [hsort, ih]
    cases hv : (v.vtype == VaultType.LOCAL) with
    | true =>
      rw [stableInsert_local v _ hv]
      simp [List.filter_cons, hv]
    | false =>
      rw [stableInsert_nonlocal v _ _ hv
        (fun w hw => (List.mem_filter.mp hw).2)
        (fun w hw => by
          have := (List.mem_filter.mp hw).2
          cases hb : (w.vtype == VaultType.LOCAL) with
          | false => rfl
          | true => rw [hb] at this; simp at this)]
      simp [List.filter_cons, hv]

/-- C8 witness: the partition equation applied to the concrete mixed list
`[vA1, vD]` (an HTTPAPI vault followed by a LOCAL vault). -/
theorem c8_sort_is_stable_partition_witness :
    sortVaults [vA1, vD] =
      ([vA1, vD].filter (fun v => v.vtype == VaultType.LOCAL) ++
        [vA1, vD].filter (fun v => !(v.vtype == VaultType.LOCAL))) :=
  c8_sort_is_stable_partition [vA1, vD]

/-! ## C9 — non-REMOTE vaults hold the wildcard grant -/

/-- C9: every LOCAL, HTTP or HTTPAPI vault derives the single wildcard grant
`(["*"], ("*", "*"))`; that grant passes `has_permission` for every
operation, database and table; construction of a non-REMOTE vault therefore
always succeeds (the SELECT gate can only fail for REMOTE vaults); and on
the permission set of a LOCAL vault the CREATE/INSERT/UPDATE gates of
`create_table`, `insert_key` and `get` all pass. -/
theorem c9_nonremote_wildcard_permissions :
    (∀ (t : VaultType) (g : List Grant), ¬(t = .REMOTE) →
      get_permissions t g = [wildcardGrant]) ∧
    (∀ (op : String) (db tbl : Option String),
      has_permission [wildcardGrant] op db tbl = true) ∧
    (∀ (t : VaultType) (n : String) (g : List Grant) (env : BackendEnv),
      ¬(t = .REMOTE) →
      vaultInit t n g env =
        .ok { vtype := t, name := n, perms := [wildcardGrant],
              hasTicket := false, env := env }) ∧
    (∀ (table : String),
      has_permission (get_permissions .LOCAL []) "CREATE" none none = true ∧
      has_permission (get_permissions .LOCAL []) "INSERT" none (some table) = true ∧
      has_permission (get_permissions .LOCAL []) "UPDATE" none (some table) = true) := by
  have hperms : ∀ (t : VaultType) (g : List Grant), ¬(t = .REMOTE) →
      get_permissions t g = [wildcardGrant] := by
    intro t g ht
    cases t with
    | REMOTE => exact absurd rfl ht
    | LOCAL => rfl
    | HTTP => rfl
    | HTTPAPI => rfl
  have hpass : ∀ (op : String) (db tbl : Option String),
      has_permission [wildcardGrant] op db tbl = true := by
    intro op db tbl
    rcases db with _ | d <;> rcases tbl with _ | t <;>
      simp [has_permission, wildcardGrant, List.filter_cons]
  refine ⟨hperms, hpass, ?_, ?_⟩
  · intro t n g env ht
    simp only [vaultInit, hperms t g ht]
    rw [if_pos (hpass "SELECT" none none)]
  · intro table
    rw [hperms .LOCAL [] (by simp)]
    exact ⟨hpass "CREATE" none none, hpass "INSERT" none (some table),
      hpass "UPDATE" none (some table)⟩

/-- C9 witness: construction of a concrete LOCAL vault succeeds with the
wildcard grant, and that grant passes a concrete gate check. -/
theorem c9_nonremote_wildcard_permissions_witness :
    ¬(VaultType.LOCAL = VaultType.REMOTE) ∧
    vaultInit .LOCAL "loc" [] emptyEnv =
      .ok { vtype := .LOCAL, name := "loc", perms := [wildcardGrant],
            hasTicket := false, env := emptyEnv } ∧
    has_permission [wildcardGrant] "INSERT" none (some "svc") = true :=
  ⟨by decide,
    c9_nonremote_wildcard_permissions.2.2.1 .LOCAL "loc" [] emptyEnv (by decide),
    c9_nonremote_wildcard_permissions.2.1 "INSERT" none (some "svc")⟩

end Vaults
